import Mathlib

/-!
Shallow embedding of the RAG answer pipeline of this repository.

The repository contains two parallel implementations of the same pipeline:
the monolith `demo/rag.ts` (source parts 003/004) and the layered rewrite
under `demo/src/` (controllers, services, utils).  The definitions below
translate the decision logic of both, function by function:

* `demo/src/utils/types.ts`            — the data model (`Chunk`, `RelevantDocument`, ...)
* `demo/src/services/rag-pipeline.service.ts` — `runDataChecker`,
  `runRespuestaFinal`, `validateAndGetRelevantChunks`
* `demo/src/services/embedding.service.ts` — `detectDimensions`,
  `embedQuestion`, `retrieveChunks`, `fetchChunksByIds`
* `demo/src/controllers/rag.controller.ts` — `executeRAGPipeline`
* `demo/rag.ts` (part_004)             — the `POST /ask` handler `askHandler`

External effects (the Gemini provider, the LangSmith prompt store, the
Postgres connection) are modelled by explicit parameters: the provider's raw
reply is a `String`, the JSON parse attempt is an `Option`-valued oracle, the
generative stage is a function argument, and the `document_chunks` table is a
`List Row`.  Everything the code computes on top of those inputs is
translated directly.
-/

/-- One retrieved document chunk, from `demo/src/utils/types.ts` (`Chunk`).
The similarity score is a rational number standing for the float the SQL
query computes. -/
structure Chunk where
  chunk_id      : String
  source_file   : String
  section_title : String
  text          : String
  similarity    : Rat
deriving Repr, DecidableEq

/-- One document selected by the data_checker stage, from
`demo/src/utils/types.ts` (`RelevantDocument`). -/
structure RelevantDocument where
  id     : String
  reason : String
deriving Repr, DecidableEq

/-- Reply shape of the data_checker prompt, from `demo/src/utils/types.ts`
(`DataCheckerResponse`). -/
structure DataCheckerResponse where
  relevant_documents : List RelevantDocument
deriving Repr, DecidableEq

/-- Reply shape of the respuesta_final prompt, from `demo/src/utils/types.ts`
(`FinalAnswerResponse`).  The field name `docuementacion` reproduces the typo
kept intentionally in the source.  The monolith `demo/rag.ts` declares the
same interface without `handoff`; its handler never reads that field, so the
richer record is used for both. -/
structure FinalAnswerResponse where
  logica         : String
  docuementacion : String
  respuesta      : String
  handoff        : Bool
deriving Repr, DecidableEq

/-- Source reference returned to the API caller, from
`demo/src/utils/types.ts` (`SourceReference`). -/
structure SourceReference where
  chunk_id      : String
  section_title : String
  source_file   : String
deriving Repr, DecidableEq

/-- JavaScript `String.prototype.trim`: drop whitespace from both ends.
Implemented over the character list so that it evaluates by kernel
reduction (`String.trim` of core Lean does not). -/
def jsTrim (s : String) : String :=
  String.mk (((s.toList.dropWhile Char.isWhitespace).reverse.dropWhile Char.isWhitespace).reverse)

/-- The backtick character, written by code point to keep the source free of
literal backticks. -/
def backtickChar : Char := Char.ofNat 96

/-- One left-to-right pass of the JavaScript global regex replace used in
`gemini.service.ts` and `rag-pipeline.service.ts`: at each position, first
try to delete a three-backtick fence followed by the word json, then a bare
three-backtick fence, otherwise keep the character and move on. -/
def stripFencesGo : Nat → List Char → List Char
  | 0, cs => cs
  | _ + 1, [] => []
  | fuel + 1, c :: rest@(c2 :: c3 :: 'j' :: 's' :: 'o' :: 'n' :: r) =>
    if c = backtickChar ∧ c2 = backtickChar ∧ c3 = backtickChar then stripFencesGo fuel r
    else c :: stripFencesGo fuel rest
  | fuel + 1, c :: rest@(c2 :: c3 :: r) =>
    if c = backtickChar ∧ c2 = backtickChar ∧ c3 = backtickChar then stripFencesGo fuel r
    else c :: stripFencesGo fuel rest
  | fuel + 1, c :: rest => c :: stripFencesGo fuel rest

/-- The fence-stripping scan, with the list length as the (always
sufficient, since every step consumes at least one character) recursion
fuel. -/
def stripFences (cs : List Char) : List Char :=
  stripFencesGo cs.length cs

/-- The cleaning applied to a raw Gemini reply in `runDataChecker`
(`demo/src/services/rag-pipeline.service.ts`): trim, strip code-fence
markup, trim again. -/
def cleanReply (raw : String) : String :=
  jsTrim (String.mk (stripFences (jsTrim raw).toList))

/-- Models the expression `checkerResult?.relevant_documents ?? []` used in
the controller and in `validateAndGetRelevantChunks`. -/
def relevantDocumentsOf (checkerResult : Option DataCheckerResponse) : List RelevantDocument :=
  (checkerResult.map (fun r => r.relevant_documents)).getD []

/-- Stage 1 of the pipeline, `runDataChecker` in
`demo/src/services/rag-pipeline.service.ts`, given the provider's raw reply.
The JSON parse attempt (`parseJSON`, which throws on invalid JSON) is the
oracle `parse`, returning `none` where the TypeScript code would throw and
land in the `catch` that returns `null`.  The literal reply strings "null"
and "" short-circuit to `null` before parsing. -/
def runDataChecker (raw : String)
    (parse : String → Option DataCheckerResponse) : Option DataCheckerResponse :=
  let cleaned := cleanReply raw
  if cleaned = "null" ∨ cleaned = "" then none
  else parse cleaned

/-- Stage 2 of the pipeline, `runRespuestaFinal` in
`demo/src/services/rag-pipeline.service.ts`, given the provider's raw reply.
If the parse oracle fails, the code recovers with a fixed fallback record
whose answer is the trimmed raw text and whose handoff flag is `false`. -/
def runRespuestaFinal (raw : String)
    (parse : String → Option FinalAnswerResponse) : FinalAnswerResponse :=
  match parse raw with
  | some r => r
  | none =>
    { logica         := "Respuesta generada directamente."
      docuementacion := ""
      respuesta      := jsTrim raw
      handoff        := false }

/-- Result record of `validateAndGetRelevantChunks`
(`demo/src/services/rag-pipeline.service.ts`). -/
structure ValidationResult where
  chunks        : List Chunk
  hadValidation : Bool
  hadFallback   : Bool
deriving Repr, DecidableEq

/-- The hallucination guard, `validateAndGetRelevantChunks` in
`demo/src/services/rag-pipeline.service.ts`.  The `Set` of valid chunk ids
is modelled by membership in the id list, which carries the same membership
relation. -/
def validateAndGetRelevantChunks (checkerResult : Option DataCheckerResponse)
    (originalChunks : List Chunk) : ValidationResult :=
  let validChunkIds := originalChunks.map (fun c => c.chunk_id)
  let validatedDocs := (relevantDocumentsOf checkerResult).filter
    (fun d => validChunkIds.contains d.id)
  if 0 < validatedDocs.length then
    { chunks := originalChunks.filter (fun c => validatedDocs.any (fun d => d.id == c.chunk_id))
      hadValidation := true
      hadFallback := false }
  else
    { chunks := originalChunks.take 2
      hadValidation := false
      hadFallback := true }

/-- One row of the `document_chunks` table, restricted to the columns the
pipeline's SELECT statements read (`demo/src/services/embedding.service.ts`).
The stored embedding vector is not carried here; the distance computed from
it is supplied as a function on rows where retrieval needs it. -/
structure Row where
  chunk_id      : String
  source_file   : String
  section_title : String
  text          : String
deriving Repr, DecidableEq

/-- Process-wide dimension state of `demo/src/services/embedding.service.ts`:
`EFFECTIVE_DIM` and `TRUNCATE_EMBEDDING`. -/
structure DimState where
  dim      : Nat
  truncate : Bool
deriving Repr, DecidableEq

/-- The startup dimension guard, `detectDimensions` in
`demo/src/services/embedding.service.ts`, as a function of the stored column
width, the probed model output width, and the production flag.
A thrown startup error is the `Except.error` case. -/
def detectDimensions (storedWidth modelWidth : Nat) (isProd : Bool) :
    Except String DimState :=
  if storedWidth = modelWidth then
    Except.ok { dim := storedWidth, truncate := false }
  else if isProd then
    Except.error "FATAL: embedding dimension mismatch in production"
  else if storedWidth < modelWidth then
    Except.ok { dim := storedWidth, truncate := true }
  else
    Except.error "embedding dimension mismatch: padding is not safe"

/-- The post-processing `embedQuestion` applies to the model's output vector
(`demo/src/services/embedding.service.ts`): truncate to `EFFECTIVE_DIM` when
the truncation flag is set and the vector is longer. -/
def embedQuestion (st : DimState) (modelVec : List Rat) : List Rat :=
  if st.truncate = true ∧ st.dim < modelVec.length then modelVec.take st.dim
  else modelVec

/-- Vector retrieval, `retrieveChunks` in
`demo/src/services/embedding.service.ts`: the SQL orders all rows by cosine
distance to the query (supplied here as `dist`), keeps the first `topK`, and
reports `1 - distance` as the similarity. -/
def retrieveChunks (rows : List Row) (dist : Row → Rat) (topK : Nat) : List Chunk :=
  ((rows.mergeSort (fun a b => dist a ≤ dist b)).take topK).map
    (fun r =>
      { chunk_id := r.chunk_id
        source_file := r.source_file
        section_title := r.section_title
        text := r.text
        similarity := 1 - dist r })

/-- Lookup by identifier set, `fetchChunksByIds` in
`demo/src/services/embedding.service.ts`: the SQL keeps the rows whose
`chunk_id` is in the requested array and selects the constant `0` as the
similarity column. -/
def fetchChunksByIds (ids : List String) (rows : List Row) : List Chunk :=
  if ids.isEmpty then []
  else (rows.filter (fun r => ids.contains r.chunk_id)).map
    (fun r =>
      { chunk_id := r.chunk_id
        source_file := r.source_file
        section_title := r.section_title
        text := r.text
        similarity := 0 })

/-- Result of the layered controller's pipeline
(`demo/src/controllers/rag.controller.ts`), together with the number of
times the respuesta_final generator was invoked — the call count a test
double would record. -/
structure PipelineResult where
  answer         : String
  logic          : String
  sources        : List SourceReference
  handoff        : Bool
  generatorCalls : Nat
deriving Repr, DecidableEq

/-- The layered pipeline, `executeRAGPipeline` in
`demo/src/controllers/rag.controller.ts`, from the retrieval result onward:
the retrieved chunks and the data_checker outcome are inputs, and the
respuesta_final stage is the oracle `gen`, applied — unconditionally, as in
the source — to the validated chunk list.  The returned record mirrors the
controller's return object; `generatorCalls` counts the `runRespuestaFinal`
invocations on this control path. -/
def executeRAGPipeline (chunks : List Chunk)
    (checkerResult : Option DataCheckerResponse)
    (gen : List Chunk → FinalAnswerResponse) : PipelineResult :=
  let v := validateAndGetRelevantChunks checkerResult chunks
  let finalAnswer := gen v.chunks
  { answer := finalAnswer.respuesta
    logic := finalAnswer.logica
    sources := v.chunks.map (fun c =>
      { chunk_id := c.chunk_id
        section_title := c.section_title
        source_file := c.source_file })
    handoff := finalAnswer.handoff
    generatorCalls := 1 }

/-- The fixed escalation message `NO_ANSWER_MESSAGE` of `demo/rag.ts`
(part_004). -/
def NO_ANSWER_MESSAGE : String := "Esta pregunta debe ser contestada por un humano."

/-- The retrieval constant `TOP_K` of `demo/rag.ts` (part_004). -/
def TOP_K : Nat := 5

/-- Response of the monolith's `POST /ask` handler (`demo/rag.ts`,
part_004), with the generator call count of a test double. -/
structure AskRouteResponse where
  answer         : String
  sources        : List SourceReference
  escalated      : Bool
  generatorCalls : Nat
deriving Repr, DecidableEq

/-- The monolith's `POST /ask` handler from the data_checker outcome onward
(`demo/rag.ts`, part_004, steps 4-7): escalate with the fixed message when
the checker selected nothing, fetch the selected ids from the table `rows`,
escalate when no row matched, and otherwise invoke the respuesta_final
oracle `gen` on the fetched chunks. -/
def askHandler (rows : List Row) (checkerResult : Option DataCheckerResponse)
    (gen : List Chunk → FinalAnswerResponse) : AskRouteResponse :=
  let docs := relevantDocumentsOf checkerResult
  if docs.isEmpty then
    { answer := NO_ANSWER_MESSAGE, sources := [], escalated := true, generatorCalls := 0 }
  else
    let selectedIds := docs.map (fun d => d.id)
    let relevantChunks := fetchChunksByIds selectedIds rows
    if relevantChunks.isEmpty then
      { answer := NO_ANSWER_MESSAGE, sources := [], escalated := true, generatorCalls := 0 }
    else
      let fa := gen relevantChunks
      { answer := fa.respuesta
        sources := relevantChunks.map (fun c =>
          { chunk_id := c.chunk_id
            section_title := c.section_title
            source_file := c.source_file })
        escalated := false
        generatorCalls := 1 }

/-! ## Supporting lemmas -/

/-- Fetching any identifier set from an empty table returns no rows. -/
theorem fetchChunksByIds_nil (ids : List String) : fetchChunksByIds ids [] = [] := by
  cases ids <;> simp [fetchChunksByIds]

/-- Retrieval returns an empty candidate list exactly when the corpus is
empty or no candidates were requested: the SQL limit is applied to an
ordering of the whole table. -/
theorem retrieveChunks_eq_nil_iff (rows : List Row) (dist : Row → Rat) (topK : Nat) :
    retrieveChunks rows dist topK = [] ↔ rows = [] ∨ topK = 0 := by
  have hlen : (rows.mergeSort (fun a b => dist a ≤ dist b)).length = rows.length :=
    List.length_mergeSort rows
  constructor
  · intro h
    have := congrArg List.length h
    simp [retrieveChunks, List.length_take, hlen] at this
    rcases this with h1 | h1
    · exact Or.inr h1
    · exact Or.inl h1
  · rintro (rfl | rfl) <;> simp [retrieveChunks]

/-- In the monolith `demo/rag.ts`, an empty retrieval result forces the
escalation response: the corpus must be empty, so even a hallucinated
selection fetches no rows, and both escalation branches return the fixed
message with no sources and without invoking the generator. -/
theorem askHandler_escalates_on_empty_retrieval (rows : List Row) (dist : Row → Rat)
    (checkerResult : Option DataCheckerResponse) (gen : List Chunk → FinalAnswerResponse)
    (h : retrieveChunks rows dist TOP_K = []) :
    askHandler rows checkerResult gen =
      { answer := NO_ANSWER_MESSAGE, sources := [], escalated := true, generatorCalls := 0 } := by
  have hrows : rows = [] := by
    rcases (retrieveChunks_eq_nil_iff rows dist TOP_K).mp h with h1 | h1
    · exact h1
    · simp [TOP_K] at h1
  subst hrows
  simp [askHandler, fetchChunksByIds_nil]

/-- In the monolith `demo/rag.ts`, every escalated response carries the
fixed message and an empty source list. -/
theorem askHandler_escalation_invariant (rows : List Row)
    (checkerResult : Option DataCheckerResponse) (gen : List Chunk → FinalAnswerResponse)
    (h : (askHandler rows checkerResult gen).escalated = true) :
    (askHandler rows checkerResult gen).sources = [] ∧
    (askHandler rows checkerResult gen).answer = NO_ANSWER_MESSAGE := by
  by_cases h1 : (relevantDocumentsOf checkerResult).isEmpty = true
  · simp [askHandler, h1]
  · by_cases h2 :
      (fetchChunksByIds ((relevantDocumentsOf checkerResult).map (fun d => d.id)) rows).isEmpty = true
    · simp [askHandler, h1, h2]
    · simp [askHandler, h1, h2] at h

/-! ## Claim theorems -/

/-- C1.  Claimed: when retrieval returns zero candidates the pipeline
returns handoff = true with the fixed escalation message and an empty
candidate list, and the generator is never invoked.  The layered controller
(`executeRAGPipeline` in `demo/src/controllers/rag.controller.ts`) has no
such escalation branch: on an empty retrieval result it still invokes the
respuesta_final generator (on the empty fallback list) and passes the
generator's own handoff flag and answer through.  Evaluated here at the
failing input: empty retrieval, checker outcome null, and a generator reply
with handoff = false. -/
theorem c1_controller_ignores_empty_retrieval :
    (executeRAGPipeline [] none
        (fun _ => FinalAnswerResponse.mk "razonamiento" "" "Texto generado" false)).handoff
      = false ∧
    (executeRAGPipeline [] none
        (fun _ => FinalAnswerResponse.mk "razonamiento" "" "Texto generado" false)).generatorCalls
      = 1 ∧
    (executeRAGPipeline [] none
        (fun _ => FinalAnswerResponse.mk "razonamiento" "" "Texto generado" false)).answer
      ≠ NO_ANSWER_MESSAGE := by
  refine ⟨rfl, rfl, ?_⟩
  decide

/-- C2.  Claimed: whenever the final result's handoff flag is true, the
candidate/sources list is empty and the answer is the fixed escalation
message, in particular when the generator itself reports handoff.  In the
layered controller the generator's handoff flag is passed through unchanged
next to the generator's own answer text and the validated (non-empty)
sources list, so the claimed invariant fails.  Evaluated at the failing
input: one retrieved chunk, validly selected, and a generator reply with
handoff = true. -/
theorem c2_handoff_invariant_fails_in_controller :
    (executeRAGPipeline [Chunk.mk "c1" "faq.md" "Devoluciones" "texto" 1]
        (some (DataCheckerResponse.mk [RelevantDocument.mk "c1" "relevante"]))
        (fun _ => FinalAnswerResponse.mk "razonamiento" "" "Texto del modelo" true)).handoff
      = true ∧
    (executeRAGPipeline [Chunk.mk "c1" "faq.md" "Devoluciones" "texto" 1]
        (some (DataCheckerResponse.mk [RelevantDocument.mk "c1" "relevante"]))
        (fun _ => FinalAnswerResponse.mk "razonamiento" "" "Texto del modelo" true)).sources
      = [SourceReference.mk "c1" "Devoluciones" "faq.md"] ∧
    (executeRAGPipeline [Chunk.mk "c1" "faq.md" "Devoluciones" "texto" 1]
        (some (DataCheckerResponse.mk [RelevantDocument.mk "c1" "relevante"]))
        (fun _ => FinalAnswerResponse.mk "razonamiento" "" "Texto del modelo" true)).answer
      ≠ NO_ANSWER_MESSAGE := by
  refine ⟨by decide, by decide, by decide⟩

/-- C3.  When the data_checker decision is null (which includes an
unparseable reply) or selects only identifiers absent from the original
candidate list, the guard returns exactly the first two candidates of the
original ranked list with the fallback flag set, and every candidate it
passes on carries an identifier from the original list. -/
theorem c3_null_or_foreign_selection_falls_back_to_top2
    (checkerResult : Option DataCheckerResponse) (originalChunks : List Chunk)
    (hne : originalChunks ≠ [])
    (h : checkerResult = none ∨
      ∀ d ∈ relevantDocumentsOf checkerResult,
        d.id ∉ originalChunks.map (fun c => c.chunk_id)) :
    validateAndGetRelevantChunks checkerResult originalChunks =
      { chunks := originalChunks.take 2, hadValidation := false, hadFallback := true } ∧
    ∀ c ∈ (validateAndGetRelevantChunks checkerResult originalChunks).chunks,
      c.chunk_id ∈ originalChunks.map (fun c => c.chunk_id) := by
  have hdocs : (relevantDocumentsOf checkerResult).filter
      (fun d => (originalChunks.map (fun c => c.chunk_id)).contains d.id) = [] := by
    rcases h with h | h
    · subst h; rfl
    · refine List.filter_eq_nil_iff.mpr ?_
      intro d hd
      exact fun hc => h d hd (List.elem_iff.mp hc)
  have hres : validateAndGetRelevantChunks checkerResult originalChunks =
      { chunks := originalChunks.take 2, hadValidation := false, hadFallback := true } := by
    simp only [validateAndGetRelevantChunks]
    rw [hdocs]
    simp
  refine ⟨hres, ?_⟩
  rw [hres]
  intro c hc
  exact List.mem_map_of_mem _ (List.take_subset _ _ hc)

/-- C5 counterexample.  Claimed: on an empty original candidate list the
guard reports usedFallback = false.  The code takes the generic fallback
branch, which sets the flag to true. -/
theorem c5_counterexample_empty_list_reports_fallback :
    (validateAndGetRelevantChunks none []).hadFallback = true := by
  decide

/-- C5 as amended: for every decision, validation on an empty original
candidate list returns the empty selection — the escalation signal — but
does so through the fallback branch, so it reports usedFallback = true (and
hadValidation = false). -/
theorem c5_amended_empty_list_empty_selection
    (checkerResult : Option DataCheckerResponse) :
    validateAndGetRelevantChunks checkerResult [] =
      { chunks := [], hadValidation := false, hadFallback := true } := by
  unfold validateAndGetRelevantChunks
  simp

/-- C3 witness: three ranked candidates, a decision naming only a foreign
identifier — the guard returns the first two candidates with the fallback
flag, and passes only original identifiers on. -/
theorem c3_witness_foreign_selection :
    validateAndGetRelevantChunks
        (some (DataCheckerResponse.mk [RelevantDocument.mk "zz" "razon"]))
        [Chunk.mk "a" "f" "s1" "t1" 1, Chunk.mk "b" "f" "s2" "t2" 1,
          Chunk.mk "c" "f" "s3" "t3" 1] =
      { chunks := [Chunk.mk "a" "f" "s1" "t1" 1, Chunk.mk "b" "f" "s2" "t2" 1],
        hadValidation := false, hadFallback := true } := by
  have h := c3_null_or_foreign_selection_falls_back_to_top2
    (some (DataCheckerResponse.mk [RelevantDocument.mk "zz" "razon"]))
    [Chunk.mk "a" "f" "s1" "t1" 1, Chunk.mk "b" "f" "s2" "t2" 1, Chunk.mk "c" "f" "s3" "t3" 1]
    (by decide) (Or.inr (by decide))
  exact h.1

/-- C4.  When at least one selected identifier occurs in the original
candidate list, the guard returns exactly the candidates whose identifiers
survived, as a subsequence of the original list (original order, each
original candidate at most once, only original identifiers), with the
fallback flag off, and without capping the number of survivors. -/
theorem c4_surviving_selection_returned_in_order
    (checkerResult : Option DataCheckerResponse) (originalChunks : List Chunk)
    (h : ∃ d ∈ relevantDocumentsOf checkerResult,
      d.id ∈ originalChunks.map (fun c => c.chunk_id)) :
    (validateAndGetRelevantChunks checkerResult originalChunks).hadFallback = false ∧
    (validateAndGetRelevantChunks checkerResult originalChunks).chunks =
      originalChunks.filter
        (fun c => (relevantDocumentsOf checkerResult).any (fun d => d.id == c.chunk_id)) ∧
    List.Sublist (validateAndGetRelevantChunks checkerResult originalChunks).chunks
      originalChunks ∧
    (∀ c ∈ originalChunks,
      (∃ d ∈ relevantDocumentsOf checkerResult, d.id = c.chunk_id) →
        c ∈ (validateAndGetRelevantChunks checkerResult originalChunks).chunks) ∧
    (∀ c ∈ (validateAndGetRelevantChunks checkerResult originalChunks).chunks,
      c.chunk_id ∈ originalChunks.map (fun c => c.chunk_id)) := by
  obtain ⟨d0, hd0, hid0⟩ := h
  have hd0v : d0 ∈ (relevantDocumentsOf checkerResult).filter
      (fun d => (originalChunks.map (fun c => c.chunk_id)).contains d.id) :=
    List.mem_filter.mpr ⟨hd0, List.elem_iff.mpr hid0⟩
  have hpos : 0 < ((relevantDocumentsOf checkerResult).filter
      (fun d => (originalChunks.map (fun c => c.chunk_id)).contains d.id)).length :=
    List.length_pos.mpr (List.ne_nil_of_mem hd0v)
  have hres : validateAndGetRelevantChunks checkerResult originalChunks =
      { chunks := originalChunks.filter
          (fun c => ((relevantDocumentsOf checkerResult).filter
            (fun d => (originalChunks.map (fun c => c.chunk_id)).contains d.id)).any
              (fun d => d.id == c.chunk_id))
        hadValidation := true
        hadFallback := false } := by
    simp only [validateAndGetRelevantChunks]
    rw [if_pos hpos]
  have hfilt : originalChunks.filter
      (fun c => ((relevantDocumentsOf checkerResult).filter
        (fun d => (originalChunks.map (fun c => c.chunk_id)).contains d.id)).any
          (fun d => d.id == c.chunk_id)) =
      originalChunks.filter
        (fun c => (relevantDocumentsOf checkerResult).any (fun d => d.id == c.chunk_id)) := by
    refine List.filter_congr ?_
    intro c hc
    apply Bool.eq_iff_iff.mpr
    constructor
    · intro hany
      obtain ⟨d, hdmem, hdeq⟩ := List.any_eq_true.mp hany
      exact List.any_eq_true.mpr ⟨d, (List.mem_filter.mp hdmem).1, hdeq⟩
    · intro hany
      obtain ⟨d, hdmem, hdeq⟩ := List.any_eq_true.mp hany
      refine List.any_eq_true.mpr ⟨d, List.mem_filter.mpr ⟨hdmem, ?_⟩, hdeq⟩
      have : d.id = c.chunk_id := by simpa using hdeq
      exact List.elem_iff.mpr (this ▸ List.mem_map_of_mem _ hc)
  refine ⟨by rw [hres], by rw [hres]; exact hfilt, ?_, ?_, ?_⟩
  · rw [hres]
    exact hfilt ▸ List.filter_sublist originalChunks
  · intro c hc ⟨d, hdmem, hdeq⟩
    rw [hres]
    simp only
    rw [hfilt]
    refine List.mem_filter.mpr ⟨hc, List.any_eq_true.mpr ⟨d, hdmem, ?_⟩⟩
    simpa using hdeq
  · intro c hc
    rw [hres] at hc
    simp only at hc
    rw [hfilt] at hc
    exact List.mem_map_of_mem _ (List.mem_filter.mp hc).1

/-- C4 witness: four ranked candidates, a decision naming three of them plus
a foreign identifier — all three survivors return, in retrieval order, more
than the prompt's advisory cap of two, with the fallback flag off. -/
theorem c4_witness_three_survivors :
    (validateAndGetRelevantChunks
        (some (DataCheckerResponse.mk
          [RelevantDocument.mk "d" "r1", RelevantDocument.mk "zz" "r2",
            RelevantDocument.mk "a" "r3", RelevantDocument.mk "c" "r4"]))
        [Chunk.mk "a" "f" "s1" "t1" 1, Chunk.mk "b" "f" "s2" "t2" 1,
          Chunk.mk "c" "f" "s3" "t3" 1, Chunk.mk "d" "f" "s4" "t4" 1]).hadFallback = false ∧
    (validateAndGetRelevantChunks
        (some (DataCheckerResponse.mk
          [RelevantDocument.mk "d" "r1", RelevantDocument.mk "zz" "r2",
            RelevantDocument.mk "a" "r3", RelevantDocument.mk "c" "r4"]))
        [Chunk.mk "a" "f" "s1" "t1" 1, Chunk.mk "b" "f" "s2" "t2" 1,
          Chunk.mk "c" "f" "s3" "t3" 1, Chunk.mk "d" "f" "s4" "t4" 1]).chunks =
      [Chunk.mk "a" "f" "s1" "t1" 1, Chunk.mk "c" "f" "s3" "t3" 1,
        Chunk.mk "d" "f" "s4" "t4" 1] := by
  have h := c4_surviving_selection_returned_in_order
    (some (DataCheckerResponse.mk
      [RelevantDocument.mk "d" "r1", RelevantDocument.mk "zz" "r2",
        RelevantDocument.mk "a" "r3", RelevantDocument.mk "c" "r4"]))
    [Chunk.mk "a" "f" "s1" "t1" 1, Chunk.mk "b" "f" "s2" "t2" 1,
      Chunk.mk "c" "f" "s3" "t3" 1, Chunk.mk "d" "f" "s4" "t4" 1]
    ⟨RelevantDocument.mk "d" "r1", by decide, by decide⟩
  refine ⟨h.1, ?_⟩
  rw [h.2.1]
  decide

/-- C6.  The startup dimension guard: equal widths give the aligned mode
and vectors pass unmodified; a narrower stored width in production aborts
startup; a wider stored width aborts startup in every environment, and no
mode ever pads a vector (the embedding step only ever truncates or passes
through). -/
theorem c6_dimension_guard_decision (storedWidth modelWidth : Nat) (isProd : Bool)
    (modelVec : List Rat) :
    (storedWidth = modelWidth →
      detectDimensions storedWidth modelWidth isProd =
        Except.ok { dim := storedWidth, truncate := false } ∧
      embedQuestion { dim := storedWidth, truncate := false } modelVec = modelVec) ∧
    (storedWidth < modelWidth → isProd = true →
      ∃ msg, detectDimensions storedWidth modelWidth isProd = Except.error msg) ∧
    (modelWidth < storedWidth →
      ∃ msg, detectDimensions storedWidth modelWidth isProd = Except.error msg) ∧
    (∀ st : DimState, (embedQuestion st modelVec).length ≤ modelVec.length) := by
  refine ⟨?_, ?_, ?_, ?_⟩
  · intro heq
    constructor
    · simp [detectDimensions, heq]
    · simp [embedQuestion]
  · intro hlt hp
    refine ⟨"FATAL: embedding dimension mismatch in production", ?_⟩
    simp [detectDimensions, Nat.ne_of_lt hlt, hp]
  · intro hgt
    have hne : storedWidth ≠ modelWidth := (Nat.ne_of_lt hgt).symm
    have hnlt : ¬storedWidth < modelWidth := Nat.not_lt.mpr (Nat.le_of_lt hgt)
    cases isProd
    · refine ⟨"embedding dimension mismatch: padding is not safe", ?_⟩
      simp [detectDimensions, hne, hnlt]
    · refine ⟨"FATAL: embedding dimension mismatch in production", ?_⟩
      simp [detectDimensions, hne]
  · intro st
    unfold embedQuestion
    split
    · simp
    · exact Nat.le_refl _

/-- C6 witness: the three decision branches at the spec's concrete widths,
768 against 768 and 3072. -/
theorem c6_witness_concrete_widths :
    detectDimensions 768 768 false = Except.ok { dim := 768, truncate := false } ∧
    (∃ msg, detectDimensions 768 3072 true = Except.error msg) ∧
    (∃ msg, detectDimensions 3072 768 false = Except.error msg) := by
  refine ⟨((c6_dimension_guard_decision 768 768 false []).1 rfl).1,
    (c6_dimension_guard_decision 768 3072 true []).2.1 (by decide) rfl,
    ((c6_dimension_guard_decision 3072 768 false []).2.2.1 (by decide))⟩

/-- C7.  In a non-production environment with a narrower stored width, the
guard selects the truncation mode, and every embedding vector the embed
operation then produces is the first storedWidth components of the model's
output, so its length is exactly storedWidth. -/
theorem c7_truncate_mode_vector_length (storedWidth modelWidth : Nat)
    (modelVec : List Rat) (hlt : storedWidth < modelWidth)
    (hv : modelVec.length = modelWidth) :
    detectDimensions storedWidth modelWidth false =
      Except.ok { dim := storedWidth, truncate := true } ∧
    embedQuestion { dim := storedWidth, truncate := true } modelVec =
      modelVec.take storedWidth ∧
    (embedQuestion { dim := storedWidth, truncate := true } modelVec).length =
      storedWidth := by
  have hlen : storedWidth < modelVec.length := by omega
  refine ⟨?_, ?_, ?_⟩
  · simp [detectDimensions, Nat.ne_of_lt hlt, hlt]
  · simp [embedQuestion, hlen]
  · simp [embedQuestion, hlen, List.length_take]
    omega

/-- C7 witness: stored width 768 against model width 3072 in development —
the emitted vector is the 768-component prefix. -/
theorem c7_witness_768_of_3072 :
    detectDimensions 768 3072 false = Except.ok { dim := 768, truncate := true } ∧
    embedQuestion { dim := 768, truncate := true } (List.replicate 3072 (0 : Rat)) =
      (List.replicate 3072 (0 : Rat)).take 768 ∧
    (embedQuestion { dim := 768, truncate := true }
      (List.replicate 3072 (0 : Rat))).length = 768 :=
  c7_truncate_mode_vector_length 768 3072 (List.replicate 3072 (0 : Rat))
    (by omega) (List.length_replicate 3072 0)

/-- C8 counterexample.  Claimed: on an unparseable reply the generator stage
answers with the entire raw reply text.  The code answers with the trimmed
reply, which differs from the raw reply whenever the reply carries
surrounding whitespace. -/
theorem c8_counterexample_trimmed_answer :
    (runRespuestaFinal " hola " (fun _ => none)).respuesta ≠ " hola " := by
  decide

/-- C8 as amended: a reply the parse oracle rejects never propagates an
error from either generative stage — the relevance filter returns the null
outcome (also for the literal "null" or empty cleaned reply), and the
answer generator returns the raw reply text trimmed of surrounding
whitespace as the answer, with an empty citation, the generic rationale
string, and the handoff flag defaulted to false. -/
theorem c8_malformed_reply_recovered_locally (raw : String)
    (parseDC : String → Option DataCheckerResponse)
    (parseFA : String → Option FinalAnswerResponse) :
    ((cleanReply raw = "null" ∨ cleanReply raw = "" ∨ parseDC (cleanReply raw) = none) →
      runDataChecker raw parseDC = none) ∧
    (parseFA raw = none →
      runRespuestaFinal raw parseFA =
        { logica := "Respuesta generada directamente.", docuementacion := "",
          respuesta := jsTrim raw, handoff := false }) := by
  constructor
  · intro h
    rcases h with h | h | h <;> simp [runDataChecker, h]
  · intro h
    simp [runRespuestaFinal, h]

/-- C8 witness: a concrete unparseable reply recovered by both stages. -/
theorem c8_witness_unparseable_reply :
    runDataChecker "respuesta libre" (fun _ => none) = none ∧
    runRespuestaFinal "respuesta libre" (fun _ => none) =
      { logica := "Respuesta generada directamente.", docuementacion := "",
        respuesta := jsTrim "respuesta libre", handoff := false } := by
  refine ⟨(c8_malformed_reply_recovered_locally "respuesta libre"
      (fun _ => none) (fun _ => none)).1 (Or.inr (Or.inr rfl)),
    (c8_malformed_reply_recovered_locally "respuesta libre"
      (fun _ => none) (fun _ => none)).2 rfl⟩

/-- C9.  The by-identifier fetch returns only chunks whose identifier was
requested; identifiers with no matching row simply yield fewer rows (the
function is total — no error outcome exists — and with the table's primary
key uniqueness it never returns more rows than identifiers requested), and
the empty identifier list returns the empty result. -/
theorem c9_fetch_by_ids_contract (ids : List String) (rows : List Row)
    (hnd : (rows.map (fun r => r.chunk_id)).Nodup) :
    (∀ c ∈ fetchChunksByIds ids rows, c.chunk_id ∈ ids) ∧
    ((∀ r ∈ rows, r.chunk_id ∉ ids) → fetchChunksByIds ids rows = []) ∧
    (fetchChunksByIds ids rows).length ≤ ids.length ∧
    fetchChunksByIds [] rows = [] := by
  refine ⟨?_, ?_, ?_, by simp [fetchChunksByIds]⟩
  · intro c hc
    unfold fetchChunksByIds at hc
    split at hc
    · simp at hc
    · obtain ⟨r, hr, rfl⟩ := List.mem_map.mp hc
      exact List.elem_iff.mp (List.mem_filter.mp hr).2
  · intro h
    unfold fetchChunksByIds
    split
    · rfl
    · rw [List.filter_eq_nil_iff.mpr (fun r hr hc => h r hr (List.elem_iff.mp hc))]
      rfl
  · unfold fetchChunksByIds
    split
    · simp
    · rw [List.length_map]
      have hsubl : ((rows.filter (fun r => ids.contains r.chunk_id)).map
          (fun r => r.chunk_id)).Sublist (rows.map (fun r => r.chunk_id)) :=
        (List.filter_sublist rows).map _
      have hnodup : ((rows.filter (fun r => ids.contains r.chunk_id)).map
          (fun r => r.chunk_id)).Nodup := hnd.sublist hsubl
      have hsubset : ((rows.filter (fun r => ids.contains r.chunk_id)).map
          (fun r => r.chunk_id)) ⊆ ids := by
        intro x hx
        obtain ⟨r, hr, rfl⟩ := List.mem_map.mp hx
        exact List.elem_iff.mp (List.mem_filter.mp hr).2
      have := (List.subperm_of_subset hnodup hsubset).length_le
      simpa using this

/-- C9 witness: one matching row, one identifier with no row — one row
comes back, not an error, and within the requested identifier set. -/
theorem c9_witness_partial_match :
    (∀ c ∈ fetchChunksByIds ["a", "zz"] [Row.mk "a" "faq.md" "Envios" "texto"],
      c.chunk_id ∈ ["a", "zz"]) ∧
    (fetchChunksByIds ["a", "zz"] [Row.mk "a" "faq.md" "Envios" "texto"]).length ≤ 2 := by
  have h := c9_fetch_by_ids_contract ["a", "zz"] [Row.mk "a" "faq.md" "Envios" "texto"]
    (by decide)
  exact ⟨h.1, h.2.2.1⟩

/-- C10.  Every chunk returned by the by-identifier fetch carries a
similarity of exactly 0: the SQL selects the constant 0 as the similarity
column, so the retrieval similarity of the Candidate model is lost on a
re-fetch. -/
theorem c10_fetched_similarity_is_zero (ids : List String) (rows : List Row) :
    ∀ c ∈ fetchChunksByIds ids rows, c.similarity = 0 := by
  intro c hc
  unfold fetchChunksByIds at hc
  split at hc
  · simp at hc
  · obtain ⟨r, _, rfl⟩ := List.mem_map.mp hc
    rfl

/-- C10 witness: the fetched copy of a stored row carries similarity 0. -/
theorem c10_witness_zero_similarity :
    Chunk.mk "a" "faq.md" "Envios" "texto" 0 ∈
      fetchChunksByIds ["a"] [Row.mk "a" "faq.md" "Envios" "texto"] ∧
    (Chunk.mk "a" "faq.md" "Envios" "texto" 0).similarity = 0 :=
  ⟨by decide,
    c10_fetched_similarity_is_zero ["a"] [Row.mk "a" "faq.md" "Envios" "texto"]
      (Chunk.mk "a" "faq.md" "Envios" "texto" 0) (by decide)⟩
